import Mathlib

/-!
Verification of the georust/proj binding core against its specification.

The development shallowly embeds the two specified subsystems:
* the network grid-retrieval callbacks of `src/network.rs` (status
  classification, retry/backoff loop, callback facade error paths), and
* the safe FFI wrapper of `src/proj.rs` / `src/pj.rs` (constructor
  marshalling, errno discipline, batch transforms, area-of-use decoding,
  options-array marshalling).

Native-engine entry points are opaque: they are modelled by oracle
structures supplying their return values, and the sequence of native calls
a Rust function makes is reified as an explicit trace (a `List` of events).
Machine floats (`f64` bounds of an area of use) are modelled as `ℚ`: the
source only ever compares them for exact (in)equality against the sentinel
`-1000.0`, which `ℚ` represents exactly.
-/

namespace ProjRs

/-! ### Model of `src/network.rs`: constants and status classification -/

/-- Maximum retry count, `const MAX_RETRIES: u8 = 8` in `network.rs`. -/
def MAX_RETRIES : Nat := 8

/-- The S3 throttling statuses retried in place of erroring,
`const RETRY_CODES: [u16; 4] = [429, 500, 502, 504]`. -/
def RETRY_CODES : List Nat := [429, 500, 502, 504]

/-- Membership in `SUCCESS_ERROR_CODES: Range<u16> = 200..300`. -/
def isSuccessCode (s : Nat) : Bool := 200 ≤ s && s < 300

/-- Membership in `CLIENT_ERROR_CODES: Range<u16> = 400..500`. -/
def isClientErrorCode (s : Nat) : Bool := 400 ≤ s && s < 500

/-- Membership in `SERVER_ERROR_CODES: Range<u16> = 500..600`. -/
def isServerErrorCode (s : Nat) : Bool := 500 ≤ s && s < 600

/-- The retry condition used both to enter and to continue the retry loop in
`error_handler`: a server error, or one of the S3 retry codes. -/
def isRetriable (s : Nat) : Bool := isServerErrorCode s || RETRY_CODES.contains s

/-- Quadratically-increasing wait time, `get_wait_time_quad` in `network.rs`:
zero for retry count 0, otherwise `retrycount² * 100` ms. The Rust source
takes an `i32` and widens to `u64`; every call site passes the positive
running retry counter, so `Nat` is faithful on the reachable inputs. -/
def get_wait_time_quad (retrycount : Nat) : Nat :=
  if retrycount = 0 then 0 else retrycount ^ 2 * 100

/-- State of the retry loop in `error_handler`: the current response status,
the `retries` counter, and the sleeps performed so far (in ms, in order). -/
structure LoopState where
  status : Nat
  retries : Nat
  sleeps : List Nat
deriving Repr, DecidableEq

/-- One-for-one model of the `while` loop of `error_handler`:

`while (server_error || retry_code) && retries <= MAX_RETRIES
   { retries += 1; sleep(get_wait_time_quad(retries)); res = reissue(); }`

`reissue n` is the status of the `n`-th reissued request (an oracle for the
HTTP transport). The loop body runs at most `MAX_RETRIES + 1` times, because
`retries` increases by one per iteration starting from 0 and the guard
requires `retries ≤ MAX_RETRIES`; the structural `fuel` argument is never
the reason the loop stops when it starts at `MAX_RETRIES + 1 - retries`
(see `retryLoop_fuel_irrelevant`). -/
def retryLoop (reissue : Nat → Nat) : Nat → LoopState → LoopState
  | 0, st => st
  | fuel + 1, st =>
    if isRetriable st.status ∧ st.retries ≤ MAX_RETRIES then
      let r := st.retries + 1
      retryLoop reissue fuel ⟨reissue r, r, st.sleeps ++ [get_wait_time_quad r]⟩
    else st

/-- The structured download failure `ProjError::DownloadError(status, url,
retries)`. The Rust variant stores the rendered status text; the model keeps
the numeric status. -/
structure DownloadFailure where
  status : Nat
  url : String
  retries : Nat
deriving Repr, DecidableEq

/-- Decidable equality for `Except`, so concrete runs can be settled by
`decide`. -/
instance {ε α : Type} [DecidableEq ε] [DecidableEq α] : DecidableEq (Except ε α)
  | .ok a, .ok b =>
    if h : a = b then .isTrue (by rw [h]) else .isFalse (by simp [h])
  | .ok _, .error _ => .isFalse (by simp)
  | .error _, .ok _ => .isFalse (by simp)
  | .error a, .error b =>
    if h : a = b then .isTrue (by rw [h]) else .isFalse (by simp [h])

/-- Observable outcome of one `error_handler` run: the returned result, the
final value of the `retries` counter, and the sleeps performed. -/
structure HandlerResult where
  result : Except DownloadFailure Nat
  retries : Nat
  sleeps : List Nat
deriving Repr, DecidableEq

/-- Model of `error_handler` in `network.rs`, on an initial response status
`status0` obtained by the caller. Branch structure mirrors the source:
a retriable status enters the retry loop; otherwise a client-error status
returns `DownloadError` immediately with `retries = 0`; in every fall-through
path a non-2xx final status is a `DownloadError` carrying the final
`retries`, and a 2xx final status is success. Transport-level errors of the
reissued requests (the `?` on `req.call()`) are outside this model: the
`reissue` oracle always yields a status. -/
def error_handler (reissue : Nat → Nat) (status0 : Nat) (url : String) : HandlerResult :=
  if isRetriable status0 then
    let st := retryLoop reissue (MAX_RETRIES + 1) ⟨status0, 0, []⟩
    if isSuccessCode st.status then ⟨.ok st.status, st.retries, st.sleeps⟩
    else ⟨.error ⟨st.status, url, st.retries⟩, st.retries, st.sleeps⟩
  else if isClientErrorCode status0 then ⟨.error ⟨status0, url, 0⟩, 0, []⟩
  else if isSuccessCode status0 then ⟨.ok status0, 0, []⟩
  else ⟨.error ⟨status0, url, 0⟩, 0, []⟩

/-! ### Model of the error type `ProjError` (src/proj.rs) and the
network callback facades -/

/-- The variants of `ProjError` reached by the modelled code paths, with
payloads as in the source (`thiserror` display strings are modelled by
`ProjError.display`). `DownloadError` keeps the rendered status text in its
first field, as `res.status().to_string()` does. -/
inductive ProjError where
  | Projection (msg : String)
  | Conversion (msg : String)
  | UnknownAreaOfUse
  | ContentLength
  | DownloadError (status : String) (url : String) (retries : Nat)
deriving Repr, DecidableEq

/-- The `#[error(...)]` display strings of the modelled `ProjError`
variants, exactly as written in `src/proj.rs`. -/
def ProjError.display : ProjError → String
  | .Projection m => "The projection failed with the following error: " ++ m
  | .Conversion m => "The conversion failed with the following error: " ++ m
  | .UnknownAreaOfUse => "The projection area of use is unknown"
  | .ContentLength => "Could not retrieve content length"
  | .DownloadError s u r =>
      "A " ++ s ++ " error occurred for url " ++ u ++ " after " ++ toString r ++ " retries"

/-- The buffer limit documented in the module header of `network.rs`:
`error_string_max_size` is set to 128 by libproj (terminating NUL
included). -/
def error_string_max_size : Nat := 128

/-- Byte string written through `out_error_string` by the `network_open`
facade when `_network_open` fails: the whole UTF-8 display string of the
error, followed by one terminating NUL byte. The source performs
`copy_from_nonoverlapping(err_string.as_ptr(), err_string.len())` then
writes `0` at index `err_string.len()`; no length check against
`error_string_max_size` occurs. -/
def network_open_error_write (e : ProjError) : List Nat :=
  (e.display.toList.map Char.toNat) ++ [0]

/-- Observable effect of one `network_open` call: the returned handle
(`none` models the null pointer) and the bytes written into
`out_error_string`. -/
structure OpenCallbackEffect where
  handle : Option Nat
  written : List Nat
deriving Repr, DecidableEq

/-- The `match` at the top of the `network_open` facade, dispatching on the
result of `_network_open` (handles are opaque naturals): on success the
inner function has already written the empty string plus NUL; on failure the
facade writes the untruncated display string plus NUL and returns the null
handle. -/
def network_open_facade (r : Except ProjError Nat) : OpenCallbackEffect :=
  match r with
  | .ok h => ⟨some h, [0]⟩
  | .error e => ⟨none, network_open_error_write e⟩

/-- Model of Rust `str::replace` with a single-character pattern: every
occurrence of `c` in `s` is replaced by the string `rep`. -/
def rustReplaceChar (s : String) (c : Char) (rep : String) : String :=
  String.mk (s.toList.foldr
    (fun ch acc => if ch = c then rep.toList ++ acc else ch :: acc) [])

/-- The `match` of the `network_read_range` facade, dispatching on the
result of `_network_read_range`: on success the byte count is returned; on
failure the facade returns `0` and writes `e.to_string().replace(0-digit,
"nought")` (the source comment intends to strip NUL characters, but the
pattern written is the digit character) followed by a terminating NUL.
The written text is modelled before the NUL terminator. -/
def network_read_range_facade (r : Except ProjError Nat) : Nat × Option String :=
  match r with
  | .ok n => (n, none)
  | .error e => (0, some (rustReplaceChar e.display (Char.ofNat 48) "nought"))

/-! ### Model of the FFI boundary of `src/proj.rs` -/

/-- The bounding box of an area of use, `struct Area` in `src/proj.rs`
(fields in source order). Bounds are `ℚ` stand-ins for `f64`: the source
only compares them exactly against the sentinel. -/
structure Area where
  north : ℚ
  south : ℚ
  east : ℚ
  west : ℚ
deriving Repr, DecidableEq

/-- `ProjCreateError` from `src/proj.rs`. `ArgumentNulError` carries the
offending string (the source carries the `ffi::NulError` derived from
it). -/
inductive ProjCreateError where
  | ArgumentNulError (arg : String)
  | ProjError (msg : String)
  | MetadataObjectCreation
deriving Repr, DecidableEq

/-- A caller-supplied string contains an embedded NUL byte, the exact
condition under which Rust `CString::new` fails. -/
def hasNulByte (s : String) : Bool := s.toList.contains (Char.ofNat 0)

/-- One native-engine entry point invocation, as recorded in the trace of a
constructor run. Handles (contexts, pipelines, areas) are opaque naturals;
`ret` fields record what the oracle returned, with `none` for a null
pointer. -/
inductive FfiCall where
  | area_create (ret : Nat)
  | area_set_bbox (area : Nat)
  | create (ctx : Nat) (definition : String) (ret : Option Nat)
  | create_crs_to_crs (ctx : Nat) (src : String) (tgt : String) (area : Nat) (ret : Option Nat)
  | create_crs_to_crs_from_pj (ctx : Nat) (src : Nat) (tgt : Nat) (area : Nat)
      (nopts : Nat) (ret : Option Nat)
  | normalize_for_visualization (ctx : Nat) (pj : Nat) (ret : Nat)
  | destroy (pj : Nat)
  | context_errno (ctx : Nat)
deriving Repr, DecidableEq

/-- Oracle for the native engine during construction: the handle returned by
`proj_area_create`, the (possibly null) pipelines returned by the three
creation entry points, the handle map of `proj_normalize_for_visualization`,
and the error state readable through `proj_context_errno` /
`proj_context_errno_string`. -/
structure NativeOracle where
  area_create_ret : Nat
  create_ret : Option Nat
  create_crs_to_crs_ret : Option Nat
  create_from_pj_ret : Option Nat
  normalize_ret : Nat → Nat
  ctx_errno : Int
  errno_message : Int → String

/-- The `Proj` struct of `src/proj.rs`: pipeline handle, owning context, and
optional area handle. -/
structure ProjModel where
  c_proj : Nat
  ctx : Nat
  area : Option Nat
deriving Repr, DecidableEq

/-- Model of `transform_string` (called by `Proj::new` and
`ProjBuilder::proj`): NUL check on the definition, then `proj_create`; a
null return queries the context errno and renders it. The returned list is
the trace of native calls made. -/
def transform_string (o : NativeOracle) (ctx : Nat) (definition : String) :
    List FfiCall × Except ProjCreateError ProjModel :=
  if hasNulByte definition then ([], .error (.ArgumentNulError definition))
  else
    match o.create_ret with
    | some p => ([.create ctx definition (some p)], .ok ⟨p, ctx, none⟩)
    | none =>
        ([.create ctx definition none, .context_errno ctx],
         .error (.ProjError (o.errno_message o.ctx_errno)))

/-- Model of `transform_epsg` (called by `Proj::new_known_crs` and
`ProjBuilder::proj_known_crs`): NUL checks on both CRS strings, then
`proj_area_create` (plus `proj_area_set_bbox` when an area was supplied),
then `proj_create_crs_to_crs`; on success the handle is passed through
`proj_normalize_for_visualization` and the stale pre-normalisation handle is
`proj_destroy`-ed before the constructor returns. -/
def transform_epsg (o : NativeOracle) (ctx : Nat) (src tgt : String) (area : Option Area) :
    List FfiCall × Except ProjCreateError ProjModel :=
  if hasNulByte src then ([], .error (.ArgumentNulError src))
  else if hasNulByte tgt then ([], .error (.ArgumentNulError tgt))
  else
    let pa := o.area_create_ret
    let tr0 := [FfiCall.area_create pa] ++
      (if area.isSome then [FfiCall.area_set_bbox pa] else [])
    match o.create_crs_to_crs_ret with
    | none =>
        (tr0 ++ [.create_crs_to_crs ctx src tgt pa none, .context_errno ctx],
         .error (.ProjError (o.errno_message o.ctx_errno)))
    | some p =>
        (tr0 ++ [.create_crs_to_crs ctx src tgt pa (some p),
                 .normalize_for_visualization ctx p (o.normalize_ret p),
                 .destroy p],
         .ok ⟨o.normalize_ret p, ctx, some pa⟩)

/-- `Proj::new_known_crs` creates a fresh context (supplied here as
`ctx`) and delegates to `transform_epsg`; `ProjBuilder::proj_known_crs`
moves the builder context out and makes the same call. -/
def new_known_crs (o : NativeOracle) (ctx : Nat) (src tgt : String) (area : Option Area) :
    List FfiCall × Except ProjCreateError ProjModel :=
  transform_epsg o ctx src tgt area

/-- Model of `crs_to_crs_from_pj`: `proj_area_create` (and the optional
bbox) happen FIRST; only then are the `KEY=VALUE` option strings converted,
returning `ArgumentNulError` at the first string with an embedded NUL; the
surviving pointers get a null terminator and are passed to
`proj_create_crs_to_crs_from_pj`. -/
def crs_to_crs_from_pj (o : NativeOracle) (ctx : Nat) (source target : ProjModel)
    (area : Option Area) (options : Option (List String)) :
    List FfiCall × Except ProjCreateError ProjModel :=
  let pa := o.area_create_ret
  let tr0 := [FfiCall.area_create pa] ++
    (if area.isSome then [FfiCall.area_set_bbox pa] else [])
  let opts := options.getD []
  match opts.find? hasNulByte with
  | some bad => (tr0, .error (.ArgumentNulError bad))
  | none =>
    match o.create_from_pj_ret with
    | none =>
        (tr0 ++ [.create_crs_to_crs_from_pj ctx source.c_proj target.c_proj pa
                   opts.length none,
                 .context_errno ctx],
         .error (.ProjError (o.errno_message o.ctx_errno)))
    | some p =>
        (tr0 ++ [.create_crs_to_crs_from_pj ctx source.c_proj target.c_proj pa
                   opts.length (some p)],
         .ok ⟨p, ctx, some pa⟩)

/-- Outcome of a Rust call that may also panic (needed for
`Pj::from_crs_to_crs` in `src/pj.rs`, which calls `.unwrap()` on the
`CString` conversions). -/
inductive RustOutcome (ε α : Type) where
  | ok (a : α)
  | err (e : ε)
  | panicked
deriving Repr, DecidableEq

/-- `PjCreateError` from `src/pj.rs`. -/
inductive PjCreateError where
  | ArgumentNulError (arg : String)
  | ProjError (msg : String)
  | ProjErrorMessageUtf8Error
deriving Repr, DecidableEq

namespace Pj

/-- Model of `Pj::from_crs_to_crs` in `src/pj.rs`: the source converts both
CRS strings with `CString::new(..).unwrap()` (marked `// TODO`), so an
embedded NUL byte panics instead of producing
`PjCreateError::ArgumentNulError`; otherwise `proj_create_crs_to_crs` is
called with a null area pointer (modelled as area handle 0) and a null
return is rendered through the context errno by `Pj::from_pj_ptr`. -/
def from_crs_to_crs (o : NativeOracle) (ctx : Nat) (source_crs target_crs : String) :
    List FfiCall × RustOutcome PjCreateError Nat :=
  if hasNulByte source_crs then ([], .panicked)
  else if hasNulByte target_crs then ([], .panicked)
  else
    match o.create_crs_to_crs_ret with
    | some p => ([.create_crs_to_crs ctx source_crs target_crs 0 (some p)], .ok p)
    | none =>
        ([.create_crs_to_crs ctx source_crs target_crs 0 none, .context_errno ctx],
         .err (.ProjError (o.errno_message o.ctx_errno)))

end Pj

/-! ### Model of the transform operations and their errno discipline -/

/-- Direction flag passed to `proj_trans` / `proj_trans_array`. -/
inductive Direction where
  | fwd
  | inv
deriving Repr, DecidableEq

/-- One native call made during a transform operation, with the errno value
observed by the `proj_errno` read. -/
inductive TransCall where
  | errno_reset (pj : Nat)
  | trans (pj : Nat) (dir : Direction)
  | trans_array (pj : Nat) (dir : Direction) (n : Nat)
  | errno_read (pj : Nat) (value : Int)
deriving Repr, DecidableEq

/-- The sticky per-object native error flag read by `proj_errno` and
cleared by `proj_errno_reset`. -/
structure PjState where
  errno : Int
deriving Repr, DecidableEq

/-- Oracle for one native single-point transform invocation: the output
coordinate map (the cartographic math, opaque here; the coordinate type is
an arbitrary `α`) and the errno value the call leaves on the object
(0 when it succeeds, having been reset immediately before). `errno_message`
models `proj_errno_string`. -/
structure TransOracle (α : Type) where
  out : α → α
  errno_after : Int
  errno_message : Int → String

/-- Model of `Proj::convert`: reset the error flag, run the native forward
transform, read the error flag back; nonzero means
`ProjError::Conversion` with the decoded message. Returns the native-call
trace, the final error-flag state, and the result. The incoming state `s` is
the error flag left by earlier calls on the same object. -/
def convert {α : Type} (o : TransOracle α) (pj : Nat) (s : PjState) (p : α) :
    List TransCall × PjState × Except ProjError α :=
  let s2 : PjState := ⟨o.errno_after⟩
  let tr := [TransCall.errno_reset pj, TransCall.trans pj .fwd,
             TransCall.errno_read pj s2.errno]
  if s2.errno = 0 then (tr, s2, .ok (o.out p))
  else (tr, s2, .error (.Conversion (o.errno_message s2.errno)))

/-- Model of `Proj::project`: as `convert`, but the direction comes from
`inverse` and a failure is `ProjError::Projection`. -/
def project {α : Type} (o : TransOracle α) (pj : Nat) (inverse : Bool) (s : PjState) (p : α) :
    List TransCall × PjState × Except ProjError α :=
  let dir := if inverse then Direction.inv else Direction.fwd
  let s2 : PjState := ⟨o.errno_after⟩
  let tr := [TransCall.errno_reset pj, TransCall.trans pj dir,
             TransCall.errno_read pj s2.errno]
  if s2.errno = 0 then (tr, s2, .ok (o.out p))
  else (tr, s2, .error (.Projection (o.errno_message s2.errno)))

/-- Oracle for one `proj_trans_array` invocation: the batch output (same
length, same order), the errno left on the object, and the native return
status of the batch call. -/
structure ArrayOracle (α : Type) where
  out : List α → List α
  errno_after : Int
  ret : Int
  errno_message : Int → String

/-- Model of `Proj::array_general`: marshal, reset the error flag, one
`proj_trans_array` call, read the flag; the slice is refilled only when both
the post-call errno and the native return status are zero, otherwise the
whole batch fails with one `ProjError::Projection`. -/
def array_general {α : Type} (o : ArrayOracle α) (pj : Nat) (dir : Direction)
    (s : PjState) (pts : List α) :
    List TransCall × PjState × Except ProjError (List α) :=
  let s2 : PjState := ⟨o.errno_after⟩
  let tr := [TransCall.errno_reset pj, TransCall.trans_array pj dir pts.length,
             TransCall.errno_read pj s2.errno]
  if s2.errno = 0 ∧ o.ret = 0 then (tr, s2, .ok (o.out pts))
  else (tr, s2, .error (.Projection (o.errno_message s2.errno)))

/-- `Proj::convert_array` delegates to `array_general` with the forward
direction (`Transformation::Conversion`). -/
def convert_array {α : Type} (o : ArrayOracle α) (pj : Nat) (s : PjState) (pts : List α) :
    List TransCall × PjState × Except ProjError (List α) :=
  array_general o pj .fwd s pts

/-- `Proj::project_array` delegates to `array_general` with the direction
chosen from `inverse` (`Transformation::Projection`). -/
def project_array {α : Type} (o : ArrayOracle α) (pj : Nat) (inverse : Bool)
    (s : PjState) (pts : List α) :
    List TransCall × PjState × Except ProjError (List α) :=
  array_general o pj (if inverse then .inv else .fwd) s pts

/-! ### Model of `Proj::area_of_use` -/

/-- What the native `proj_get_area_of_use` call produced: its return
status and the five out-parameters (the area name as an already-decoded
optional string). -/
structure AreaOfUseRaw where
  res : Int
  west : ℚ
  south : ℚ
  east : ℚ
  north : ℚ
  name : Option String
deriving Repr, DecidableEq

/-- Model of `Proj::area_of_use`: a zero return status is
`ProjError::UnknownAreaOfUse`; otherwise the area is `Some` exactly when
every one of the four bounds differs from the sentinel `-1000.0`, and
`None` as soon as any bound equals it. -/
def area_of_use (r : AreaOfUseRaw) : Except ProjError (Option Area × Option String) :=
  if r.res = 0 then .error .UnknownAreaOfUse
  else
    let area : Option Area :=
      if r.west ≠ -1000 ∧ r.south ≠ -1000 ∧ r.east ≠ -1000 ∧ r.north ≠ -1000 then
        some { west := r.west, south := r.south, east := r.east, north := r.north }
      else none
    .ok (area, r.name)

/-! ### Model of the options-array marshalling of `to_projjson` and
`as_wkt` -/

/-- The `KEY=VALUE` strings accumulated by `Proj::to_projjson` from its
three optional formatting controls, in push order. (`CString` conversion
errors on embedded NULs are not modelled: the claims under study concern the
shape of the pointer array.) -/
def to_projjson_opts (multiline : Option Bool) (indentation_width : Option Nat)
    (schema : Option String) : List String :=
  (match multiline with
   | some b => [if b then "MULTILINE=YES" else "MULTILINE=NO"]
   | none => []) ++
  (match indentation_width with
   | some w => ["INDENTATION_WIDTH=" ++ toString w]
   | none => []) ++
  (match schema with
   | some s => ["SCHEMA=" ++ s]
   | none => [])

/-- The pointer array `opts_ptrs` passed to `proj_as_projjson`: every
option string pointer, then the always-pushed null terminator (`none`
models a null pointer). -/
def to_projjson_opts_ptrs (multiline : Option Bool) (indentation_width : Option Nat)
    (schema : Option String) : List (Option String) :=
  ((to_projjson_opts multiline indentation_width schema).map some) ++ [none]

/-- The `OUTPUT_AXIS` policy of `WktOptions`. -/
inductive WktOutputAxis where
  | Auto
  | Yes
  | No
deriving Repr, DecidableEq

/-- The `WktOptions` struct of `src/proj.rs` (all fields optional). -/
structure WktOptions where
  multiline : Option Bool := none
  indentation_width : Option Nat := none
  output_axis : Option WktOutputAxis := none
  strict : Option Bool := none
  allow_ellipsoidal_height_as_vertical_crs : Option Bool := none
  allow_linunit_node : Option Bool := none
deriving Repr, DecidableEq

/-- The `options_str` value built by `Proj::as_wkt`: `None` when no options
struct was given or when every field is unset, otherwise the `KEY=VALUE`
strings in push order. -/
def as_wkt_options_str (options : Option WktOptions) : Option (List String) :=
  match options with
  | none => none
  | some o =>
    let opts :=
      (match o.multiline with
       | some b => ["MULTILINE=" ++ if b then "YES" else "NO"]
       | none => []) ++
      (match o.indentation_width with
       | some w => ["INDENTATION_WIDTH=" ++ toString w]
       | none => []) ++
      (match o.output_axis with
       | some WktOutputAxis.Auto => ["OUTPUT_AXIS=AUTO"]
       | some WktOutputAxis.Yes => ["OUTPUT_AXIS=YES"]
       | some WktOutputAxis.No => ["OUTPUT_AXIS=NO"]
       | none => []) ++
      (match o.strict with
       | some b => ["STRICT=" ++ if b then "YES" else "NO"]
       | none => []) ++
      (match o.allow_ellipsoidal_height_as_vertical_crs with
       | some b => ["ALLOW_ELLIPSOIDAL_HEIGHT_AS_VERTICAL_CRS=" ++ if b then "YES" else "NO"]
       | none => []) ++
      (match o.allow_linunit_node with
       | some b => ["ALLOW_LINUNIT_NODE=" ++ if b then "YES" else "NO"]
       | none => [])
    if opts.isEmpty then none else some opts

/-- The options argument actually passed to `proj_as_wkt`: the source maps
`options_str` to a pointer vector WITHOUT appending a null terminator and
passes `ptr::null()` when `options_str` is `None`. Outer `none` models the
null pointer; a `some` list is the verbatim pointer-array contents. -/
def as_wkt_opts_ptrs (options : Option WktOptions) : Option (List (Option String)) :=
  (as_wkt_options_str options).map (fun l => l.map some)

/-- A concrete native-engine oracle for witness runs: every creation entry
point returns a distinct non-null handle, and normalisation maps handle `n`
to `n + 100`. -/
def oracleEx : NativeOracle where
  area_create_ret := 5
  create_ret := some 21
  create_crs_to_crs_ret := some 11
  create_from_pj_ret := some 31
  normalize_ret := fun n => n + 100
  ctx_errno := 2
  errno_message := fun _ => "native failure"

/-! ### Helper lemmas and claim theorems -/

/-- Appending a one-element list puts that element last. -/
theorem getLast?_append_single {α : Type} (xs : List α) (a : α) :
    (xs ++ [a]).getLast? = some a := by
  rw [List.getLast?_append_cons]
  simp

/-- The guard of the retry loop forces exit after at most
`MAX_RETRIES + 1 - retries` iterations, so any fuel of at least that much
produces the same result: the fuel never cuts the loop short. -/
theorem retryLoop_fuel_irrelevant (reissue : Nat → Nat) :
    ∀ fuel₁ fuel₂ : Nat, ∀ st : LoopState,
    MAX_RETRIES + 1 - st.retries ≤ fuel₁ → MAX_RETRIES + 1 - st.retries ≤ fuel₂ →
    retryLoop reissue fuel₁ st = retryLoop reissue fuel₂ st := by
  intro fuel₁
  induction fuel₁ with
  | zero =>
    intro fuel₂ st h₁ h₂
    have hr : MAX_RETRIES + 1 ≤ st.retries := by omega
    cases fuel₂ with
    | zero => rfl
    | succ n =>
      rw [retryLoop, retryLoop, if_neg]
      rintro ⟨-, hle⟩
      omega
  | succ n ih =>
    intro fuel₂ st h₁ h₂
    cases fuel₂ with
    | zero =>
      have hr : MAX_RETRIES + 1 ≤ st.retries := by omega
      rw [retryLoop, retryLoop, if_neg]
      rintro ⟨-, hle⟩
      omega
    | succ m =>
      rw [retryLoop, retryLoop]
      by_cases hc : isRetriable st.status ∧ st.retries ≤ MAX_RETRIES
      · rw [if_pos hc, if_pos hc]
        exact ih m _ (by simp only; omega) (by simp only; omega)
      · rw [if_neg hc, if_neg hc]

/-- One iteration of the retry loop while the guard holds. -/
theorem retryLoop_step (reissue : Nat → Nat) (fuel : Nat) (st : LoopState)
    (h : isRetriable st.status = true ∧ st.retries ≤ MAX_RETRIES) :
    retryLoop reissue (fuel + 1) st =
      retryLoop reissue fuel
        ⟨reissue (st.retries + 1), st.retries + 1,
         st.sleeps ++ [get_wait_time_quad (st.retries + 1)]⟩ := by
  rw [retryLoop, if_pos h]

/-- The retry loop returns its state unchanged once the guard fails. -/
theorem retryLoop_exit (reissue : Nat → Nat) (fuel : Nat) (st : LoopState)
    (h : ¬(isRetriable st.status = true ∧ st.retries ≤ MAX_RETRIES)) :
    retryLoop reissue fuel st = st := by
  cases fuel with
  | zero => rfl
  | succ n => rw [retryLoop, if_neg h]

/-- A retriable first status whose first reissue succeeds with 206 makes the
handler return success after exactly one reissue and one 100 ms sleep. -/
theorem error_handler_retriable_first_success (t : Nat) (ht : isRetriable t = true)
    (r2 : Nat → Nat) (hr2 : r2 1 = 206) (url : String) :
    error_handler r2 t url = ⟨.ok 206, 1, [100]⟩ := by
  have h1 : retryLoop r2 (MAX_RETRIES + 1) ⟨t, 0, []⟩ = (⟨206, 1, [100]⟩ : LoopState) := by
    rw [retryLoop_step r2 MAX_RETRIES ⟨t, 0, []⟩ ⟨ht, Nat.zero_le _⟩]
    simp only [Nat.zero_add, List.nil_append]
    rw [hr2]
    exact retryLoop_exit r2 MAX_RETRIES ⟨206, 1, [get_wait_time_quad 1]⟩ (by decide)
  simp only [error_handler, if_pos ht, h1]
  rfl

/-- Claim C2 (code bug): the retry loop is documented to perform at most
`MAX_RETRIES = 8` reissues (the source comments say "up to MAX_RETRIES" and
that "a value of 8 allows up to 6400 ms of retry delay"), and the sleep
before the n-th reissue is n² × 100 ms with zero for retry count 0. The
sleep schedule holds, but the guard `retries <= MAX_RETRIES` admits a ninth
iteration: on an endless run of 503s the handler performs 9 reissues
(sleeping 8100 ms before the last one) before giving up, and a sequence of
nine consecutive retriable failures followed by a success is accepted on
the ninth reissue rather than abandoned after eight. -/
theorem c2_retry_loop_exceeds_max_retries :
    get_wait_time_quad 0 = 0 ∧
    (error_handler (fun _ => 503) 503 "https://cdn.proj.org/grid.tif").retries = 9 ∧
    (error_handler (fun _ => 503) 503 "https://cdn.proj.org/grid.tif").sleeps =
      [100, 400, 900, 1600, 2500, 3600, 4900, 6400, 8100] ∧
    (error_handler (fun _ => 503) 503 "https://cdn.proj.org/grid.tif").result =
      .error ⟨503, "https://cdn.proj.org/grid.tif", 9⟩ ∧
    (error_handler (fun n => if n ≤ 8 then 503 else 206) 503 "u").result = .ok 206 ∧
    (error_handler (fun n => if n ≤ 8 then 503 else 206) 503 "u").retries = 9 :=
  ⟨rfl, rfl, rfl, rfl, rfl, rfl⟩

/-- Claim C7: a client-error status (400–499) outside the retry set fails
immediately with a download error carrying retry count 0, performing no
reissue and no sleep; and every status in the retry set — including 429 and
500, which also lie in the client/server-error ranges — takes the retry
path instead (shown by a first reissue succeeding). -/
theorem c7_client_error_fails_without_retry (s : Nat) (reissue : Nat → Nat) (url : String)
    (hclient : isClientErrorCode s = true) (hnr : s ∉ RETRY_CODES) :
    error_handler reissue s url = ⟨.error ⟨s, url, 0⟩, 0, []⟩ ∧
    (∀ t ∈ RETRY_CODES, ∀ r2 : Nat → Nat, r2 1 = 206 →
      error_handler r2 t url = ⟨.ok 206, 1, [100]⟩) := by
  constructor
  · have hcs : 400 ≤ s ∧ s < 500 := by simpa [isClientErrorCode] using hclient
    obtain ⟨h400, h500⟩ := hcs
    interval_cases s <;> first
      | exact absurd hnr (by decide)
      | rfl
  · intro t ht r2 hr2
    fin_cases ht <;> exact error_handler_retriable_first_success _ (by decide) r2 hr2 url

/-- Witness for C7 at status 404. -/
theorem c7_witness :
    isClientErrorCode 404 = true ∧ 404 ∉ RETRY_CODES ∧
    error_handler (fun _ => 200) 404 "https://cdn.proj.org/grid.tif" =
      ⟨.error ⟨404, "https://cdn.proj.org/grid.tif", 0⟩, 0, []⟩ :=
  ⟨by decide, by decide,
   (c7_client_error_fails_without_retry 404 (fun _ => 200) "https://cdn.proj.org/grid.tif"
     (by decide) (by decide)).1⟩

set_option maxRecDepth 10000 in
/-- Claim C8 (code bug): the `network_open` facade does return a null handle
on failure, but the error text is NOT truncated to
`error_string_max_size`: the facade writes the whole display string plus a
terminating NUL regardless of the buffer limit (the module carries a TODO
to add the missing length checks), so a download failure with a long URL
writes more than 128 bytes into the 128-byte buffer. -/
theorem c8_error_string_not_truncated :
    (∀ e : ProjError, (network_open_facade (.error e)).handle = none) ∧
    (∀ e : ProjError, (network_open_facade (.error e)).written =
      (e.display.toList.map Char.toNat) ++ [0]) ∧
    error_string_max_size <
      (network_open_facade (.error (.DownloadError "503 Service Unavailable"
        "https://cdn.proj.org/a/very/long/path/segment/to/a/datum/shift/grid/us_noaa_geoid09_ak.tif"
        8))).written.length :=
  ⟨fun _ => rfl, fun _ => rfl, by decide⟩

set_option maxRecDepth 10000 in
/-- Claim C10: on failure the `network_read_range` facade returns 0 and
writes the display string of the error with every occurrence of the digit
zero replaced by the string "nought" (the source comment intends to strip
NUL bytes, but the pattern written is the character for the digit); in
particular a message containing the status 500 is reported with
"5noughtnought". -/
theorem c10_zero_digit_replaced_with_nought :
    (∀ e : ProjError, (network_read_range_facade (.error e)).1 = 0) ∧
    (∀ e : ProjError, (network_read_range_facade (.error e)).2 =
      some (rustReplaceChar e.display (Char.ofNat 48) "nought")) ∧
    rustReplaceChar "500" (Char.ofNat 48) "nought" = "5noughtnought" ∧
    (network_read_range_facade (.error (.DownloadError "500 Internal Server Error"
        "https://cdn.proj.org/grid.tif" 9))).2 =
      some ("A 5noughtnought Internal Server Error error occurred for url " ++
        "https://cdn.proj.org/grid.tif after 9 retries") :=
  ⟨fun _ => rfl, fun _ => rfl, by decide, by decide⟩

/-- Claim C1: every successful `Proj::new_known_crs` /
`ProjBuilder::proj_known_crs` construction (both run `transform_epsg`)
returns the handle produced by applying
`proj_normalize_for_visualization` to the `proj_create_crs_to_crs` result,
and the trace of native calls made before the constructor returns contains
the normalisation immediately followed by `proj_destroy` of the
pre-normalisation handle. -/
theorem c1_normalize_then_destroy (o : NativeOracle) (ctx : Nat) (src tgt : String)
    (area : Option Area) (tr : List FfiCall) (p : ProjModel)
    (h : new_known_crs o ctx src tgt area = (tr, .ok p)) :
    ∃ pre, o.create_crs_to_crs_ret = some pre ∧
      p.c_proj = o.normalize_ret pre ∧
      tr = ([FfiCall.area_create o.area_create_ret] ++
        (if area.isSome then [FfiCall.area_set_bbox o.area_create_ret] else [])) ++
        [FfiCall.create_crs_to_crs ctx src tgt o.area_create_ret (some pre),
         FfiCall.normalize_for_visualization ctx pre (o.normalize_ret pre),
         FfiCall.destroy pre] := by
  unfold new_known_crs transform_epsg at h
  by_cases h1 : hasNulByte src
  · simp only [h1, if_true] at h
    exact absurd (congrArg Prod.snd h).symm (by simp)
  by_cases h2 : hasNulByte tgt
  · simp only [h1, h2, if_true, if_false, Bool.false_eq_true] at h
    exact absurd (congrArg Prod.snd h).symm (by simp)
  simp only [h1, h2, if_false, Bool.false_eq_true] at h
  cases hc : o.create_crs_to_crs_ret with
  | none =>
    rw [hc] at h
    exact absurd (congrArg Prod.snd h).symm (by simp)
  | some pre =>
    rw [hc] at h
    refine ⟨pre, rfl, ?_, ?_⟩
    · have hp := (Prod.mk.injEq _ _ _ _ ▸ h).2
      simp only [Except.ok.injEq] at hp
      rw [← hp]
    · exact ((Prod.mk.injEq _ _ _ _ ▸ h).1).symm

/-- Witness for C1: a concrete oracle whose pipeline handle 11 is
normalised to 111 and destroyed within the constructor trace. -/
theorem c1_witness :
    ∃ pre, oracleEx.create_crs_to_crs_ret = some pre ∧
      (⟨111, 1, some 5⟩ : ProjModel).c_proj = oracleEx.normalize_ret pre ∧
      [FfiCall.area_create 5,
       FfiCall.create_crs_to_crs 1 "EPSG:4326" "EPSG:3857" 5 (some 11),
       FfiCall.normalize_for_visualization 1 11 111,
       FfiCall.destroy 11] =
      ([FfiCall.area_create oracleEx.area_create_ret] ++
        (if (none : Option Area).isSome then [FfiCall.area_set_bbox oracleEx.area_create_ret]
         else [])) ++
        [FfiCall.create_crs_to_crs 1 "EPSG:4326" "EPSG:3857" oracleEx.area_create_ret (some pre),
         FfiCall.normalize_for_visualization 1 pre (oracleEx.normalize_ret pre),
         FfiCall.destroy pre] :=
  c1_normalize_then_destroy oracleEx 1 "EPSG:4326" "EPSG:3857" none
    [FfiCall.area_create 5,
     FfiCall.create_crs_to_crs 1 "EPSG:4326" "EPSG:3857" 5 (some 11),
     FfiCall.normalize_for_visualization 1 11 111,
     FfiCall.destroy 11]
    ⟨111, 1, some 5⟩ rfl

/-- Counterexample to C3 as stated: a native return status of 0 for the
whole `proj_get_area_of_use` call is NOT treated as a non-error by the
code; it is mapped to the error `ProjError::UnknownAreaOfUse`. -/
theorem c3_counterexample :
    area_of_use ⟨0, 1, 2, 3, 4, some "World"⟩ = .error .UnknownAreaOfUse := rfl

/-- Claim C3, amended: the all-four sentinel pattern (−1000 on every bound)
yields area `None`; a whole-call return status of 0 is reported as the
error `UnknownAreaOfUse` (not as a non-error); and a partial sentinel
pattern is never accepted as a valid area — any bound equal to −1000 also
yields area `None`. -/
theorem c3_area_of_use_sentinel (r : AreaOfUseRaw) :
    (r.res = 0 → area_of_use r = .error .UnknownAreaOfUse) ∧
    (r.res ≠ 0 → r.west = -1000 → r.south = -1000 → r.east = -1000 → r.north = -1000 →
      area_of_use r = .ok (none, r.name)) ∧
    (r.res ≠ 0 → (r.west = -1000 ∨ r.south = -1000 ∨ r.east = -1000 ∨ r.north = -1000) →
      area_of_use r = .ok (none, r.name)) := by
  refine ⟨?_, ?_, ?_⟩
  · intro h0
    simp [area_of_use, h0]
  · intro hres hw _ _ _
    simp [area_of_use, hres, hw]
  · intro hres hdisj
    rcases hdisj with h | h | h | h <;> simp [area_of_use, hres, h]

/-- Witness for C3: the full sentinel on a nonzero-status call yields no
area but keeps the name. -/
theorem c3_witness :
    (1 : Int) ≠ 0 ∧
    area_of_use ⟨1, -1000, -1000, -1000, -1000, some "World"⟩ = .ok (none, some "World") :=
  ⟨by decide,
   (c3_area_of_use_sentinel ⟨1, -1000, -1000, -1000, -1000, some "World"⟩).2.1
     (by decide) rfl rfl rfl rfl⟩

/-- Counterexample to C4 as stated: for the array variants "error exactly
when the post-call code is nonzero" fails — a batch call whose post-call
errno is 0 but whose native return status is 1 still fails the whole
call. -/
theorem c4_counterexample :
    (convert_array (⟨id, 0, 1, fun _ => "m"⟩ : ArrayOracle Nat) 7 ⟨0⟩ [1, 2, 3]).2.2 =
      .error (.Projection "m") ∧
    (convert_array (⟨id, 0, 1, fun _ => "m"⟩ : ArrayOracle Nat) 7 ⟨0⟩ [1, 2, 3]).2.1 =
      (⟨0⟩ : PjState) := ⟨rfl, rfl⟩

/-- Claim C4, amended: every transform operation resets the native error
flag before the native transform and reads it afterwards (visible in the
call trace); `project`/`convert` return an error exactly when the
post-call code is nonzero, while the array variants return an error exactly
when the post-call code or the native batch return status is nonzero; and
because of the unconditional reset the outcome is independent of the error
state left by earlier calls on the same object. -/
theorem c4_errno_reset_discipline {α : Type} (o : TransOracle α) (oa : ArrayOracle α)
    (pj : Nat) (s t : PjState) (p : α) (pts : List α) (dir : Direction) :
    (convert o pj s p).1 =
      [TransCall.errno_reset pj, TransCall.trans pj .fwd,
       TransCall.errno_read pj o.errno_after] ∧
    (project o pj true s p).1 =
      [TransCall.errno_reset pj, TransCall.trans pj .inv,
       TransCall.errno_read pj o.errno_after] ∧
    (array_general oa pj dir s pts).1 =
      [TransCall.errno_reset pj, TransCall.trans_array pj dir pts.length,
       TransCall.errno_read pj oa.errno_after] ∧
    ((convert o pj s p).2.2 = .ok (o.out p) ↔ o.errno_after = 0) ∧
    ((project o pj true s p).2.2 = .ok (o.out p) ↔ o.errno_after = 0) ∧
    ((array_general oa pj dir s pts).2.2 = .ok (oa.out pts) ↔
      oa.errno_after = 0 ∧ oa.ret = 0) ∧
    convert o pj s p = convert o pj t p ∧
    project o pj true s p = project o pj true t p ∧
    array_general oa pj dir s pts = array_general oa pj dir t pts := by
  refine ⟨?_, ?_, ?_, ?_, ?_, ?_, rfl, rfl, rfl⟩
  · by_cases h : o.errno_after = 0 <;> simp [convert, h]
  · by_cases h : o.errno_after = 0 <;> simp [project, h]
  · by_cases h1 : oa.errno_after = 0 <;> by_cases h2 : oa.ret = 0 <;>
      simp [array_general, h1, h2]
  · by_cases h : o.errno_after = 0 <;> simp [convert, h]
  · by_cases h : o.errno_after = 0 <;> simp [project, h]
  · by_cases h1 : oa.errno_after = 0 <;> by_cases h2 : oa.ret = 0 <;>
      simp [array_general, h1, h2]

/-- Witness for C4: outcome of `convert` is unaffected by the incoming
error-flag state. -/
theorem c4_witness :
    convert (⟨fun n => n + 1, 0, fun _ => "m"⟩ : TransOracle Nat) 7 ⟨3⟩ 5 =
      convert (⟨fun n => n + 1, 0, fun _ => "m"⟩ : TransOracle Nat) 7 ⟨9⟩ 5 :=
  (c4_errno_reset_discipline (⟨fun n => n + 1, 0, fun _ => "m"⟩ : TransOracle Nat)
    (⟨id, 0, 0, fun _ => "m"⟩ : ArrayOracle Nat) 7 ⟨3⟩ ⟨9⟩ 5 [] .fwd).2.2.2.2.2.2.1

/-- Claim C5 (code bug): the NUL fail-fast contract holds for
`transform_string` and `transform_epsg` (error before any native call, with
an empty trace), but `Pj::from_crs_to_crs` panics on an embedded NUL
(`CString::new(..).unwrap()`, marked TODO in the source) instead of
returning `ArgumentNulError`, and `crs_to_crs_from_pj` invokes the native
`proj_area_create` entry point before converting the option strings, so an
option with an embedded NUL fails only after a native call was made. -/
theorem c5_nul_byte_handling :
    Pj.from_crs_to_crs oracleEx 3 "EPSG:4326\x00" "EPSG:3857" = ([], .panicked) ∧
    crs_to_crs_from_pj oracleEx 3 ⟨21, 3, none⟩ ⟨22, 3, none⟩ none
        (some ["ALLOW_BALLPARK=NO\x00"]) =
      ([FfiCall.area_create 5], .error (.ArgumentNulError "ALLOW_BALLPARK=NO\x00")) ∧
    transform_string oracleEx 3 "+proj=merc\x00" =
      ([], .error (.ArgumentNulError "+proj=merc\x00")) ∧
    transform_epsg oracleEx 3 "EPSG:4326\x00" "EPSG:3857" none =
      ([], .error (.ArgumentNulError "EPSG:4326\x00")) :=
  ⟨rfl, by decide, rfl, rfl⟩

/-- Claim C6: a batch call (`convert_array` / `project_array`) succeeds
exactly when both the post-call native error code and the native batch
return status are zero, and otherwise the entire call fails with the single
error `ProjError::Projection` — there is no per-element reporting. -/
theorem c6_batch_all_or_error {α : Type} (oa : ArrayOracle α) (pj : Nat) (s : PjState)
    (pts : List α) (inverse : Bool) :
    ((convert_array oa pj s pts).2.2 = .ok (oa.out pts) ↔
      oa.errno_after = 0 ∧ oa.ret = 0) ∧
    ((project_array oa pj inverse s pts).2.2 = .ok (oa.out pts) ↔
      oa.errno_after = 0 ∧ oa.ret = 0) ∧
    (¬(oa.errno_after = 0 ∧ oa.ret = 0) →
      (convert_array oa pj s pts).2.2 =
        .error (.Projection (oa.errno_message oa.errno_after)) ∧
      (project_array oa pj inverse s pts).2.2 =
        .error (.Projection (oa.errno_message oa.errno_after))) := by
  refine ⟨?_, ?_, ?_⟩
  · by_cases h1 : oa.errno_after = 0 <;> by_cases h2 : oa.ret = 0 <;>
      simp [convert_array, array_general, h1, h2]
  · by_cases h1 : oa.errno_after = 0 <;> by_cases h2 : oa.ret = 0 <;>
      simp [project_array, array_general, h1, h2]
  · intro hne
    constructor <;>
      simp [convert_array, project_array, array_general, hne]

/-- Witness for C6 at a concrete failing batch oracle. -/
theorem c6_witness :
    ¬((1 : Int) = 0 ∧ (0 : Int) = 0) ∧
    (convert_array (⟨id, 1, 0, fun _ => "m"⟩ : ArrayOracle Nat) 7 ⟨0⟩ [1, 2]).2.2 =
      .error (.Projection "m") :=
  ⟨by simp,
   ((c6_batch_all_or_error (⟨id, 1, 0, fun _ => "m"⟩ : ArrayOracle Nat) 7 ⟨0⟩ [1, 2]
     false).2.2 (by simp)).1⟩

/-- Claim C9 (code bug): `to_projjson` always passes a null-terminated
options array (a zero-length null-terminated array when the option list is
empty), but `as_wkt` does not: it maps the option strings to a pointer
vector WITHOUT appending the null terminator, and passes a null pointer
when no option is set. -/
theorem c9_options_array_termination :
    (∀ m : Option Bool, ∀ i : Option Nat, ∀ sc : Option String,
      (to_projjson_opts_ptrs m i sc).getLast? = some none) ∧
    to_projjson_opts_ptrs none none none = [none] ∧
    as_wkt_opts_ptrs none = none ∧
    as_wkt_opts_ptrs (some { multiline := some true }) = some [some "MULTILINE=YES"] ∧
    ([some "MULTILINE=YES"] : List (Option String)).getLast? =
      some (some "MULTILINE=YES") ∧
    (some "MULTILINE=YES" : Option String) ≠ none := by
  refine ⟨?_, rfl, rfl, by decide, by decide, by decide⟩
  intro m i sc
  exact getLast?_append_single _ _

end ProjRs
